import Mathlib

/-!
# Verification of the data-profiling and chart-specification engine

Shallow embedding of `backend/app/services/visualization_service.py` and
`backend/app/services/data_processor.py`.

Modelling conventions:
* A pandas `DataFrame` is a list of column names, a list of column dtypes, and
  a list of rows; a cell is `Option Value`, `none` standing for a missing value
  (`NaN` / `None`).
* Machine floats are modelled as rationals (all arithmetic the claims touch is
  exact: sums, medians, counts).
* Fallible code returns `Except PyErr`; a raised `ValueError`/`ZeroDivisionError`
  becomes an `Except.error`.
* A plotly figure is abstracted to the data series of its traces plus the
  layout fields the code sets that the specification talks about (title,
  trace mode / fill hints).
* Class methods that read `self.df` become functions taking the dataframe; a
  method returns its value together with the dataframe that `self.df` holds
  after the call (explicit state passing).
-/

namespace AIDA

/-- A scalar cell value of a dataframe column: integer (`int64`), float
(`float64`, modelled as `ℚ`) or string (`object` storage). -/
inductive Value where
  | vInt (i : Int)
  | vRat (q : ℚ)
  | vStr (s : String)
deriving DecidableEq, Repr

/-- The pandas storage dtype of a column. -/
inductive Dtype where
  | int64
  | float64
  | boolT
  | objectT
deriving DecidableEq, Repr

/-- A pandas dataframe: named columns with dtypes, and rows of optional cells
(`none` is a missing value, `NaN`).  pandas guarantees uniform row length; the
model is total on ragged rows (an out-of-range cell reads as missing). -/
structure DataFrame where
  colNames : List String
  dtypes : List Dtype
  rows : List (List (Option Value))
deriving DecidableEq, Repr

/-- Python exceptions raised by the embedded code. -/
inductive PyErr where
  | valueError (msg : String)
  | zeroDivisionError
deriving DecidableEq, Repr

/-- A single quote character, used in the `ValueError` message texts. -/
def sq : String := String.singleton (Char.ofNat 39)

/-- Strict lexicographic order on character lists (by code point). -/
def charListLt : List Char → List Char → Bool
  | _, [] => false
  | [], _ :: _ => true
  | a :: as, b :: bs => a.toNat < b.toNat || (a == b && charListLt as bs)

/-- String order (`a ≤ b`, lexicographic by code point), used to model pandas
ascending sorts on string keys. -/
def strLeB (a b : String) : Bool := a == b || charListLt a.data b.data

/-- A fixed total order on cell values, modelling the ascending order pandas
uses on group keys (columns are homogeneous, so only the same-constructor
cases arise on well-typed frames). -/
def vleB : Value → Value → Bool
  | .vInt a, .vInt b => a ≤ b
  | .vRat a, .vRat b => a ≤ b
  | .vStr a, .vStr b => strLeB a b
  | .vInt _, _ => true
  | .vRat _, .vInt _ => false
  | .vRat _, .vStr _ => true
  | .vStr _, _ => false

/-- `str(value)` as used when the code labels traces by a group value. -/
def valueToStr : Value → String
  | .vInt i => toString i
  | .vRat q => toString q
  | .vStr s => s

/-- Numeric view of a cell value (`int64`/`float64` cells); strings are not
numeric. -/
def toRatV : Value → Option ℚ
  | .vInt i => some (Rat.ofInt i)
  | .vRat q => some q
  | .vStr _ => none

/-- Keep the first occurrence of each element, dropping later duplicates
(pandas `drop_duplicates` / hashtable discovery order). -/
def dedupFirstAux [DecidableEq α] : List α → List α → List α
  | [], _ => []
  | x :: xs, seen => if x ∈ seen then dedupFirstAux xs seen else x :: dedupFirstAux xs (x :: seen)

/-- First-occurrence deduplication. -/
def dedupFirst [DecidableEq α] (l : List α) : List α := dedupFirstAux l []

/-- Number of columns of a dataframe. -/
def DataFrame.ncols (df : DataFrame) : Nat := df.colNames.length

/-- `name in df.columns`. -/
def hasCol (df : DataFrame) (name : String) : Bool := df.colNames.contains name

/-- Index of a named column (`df.columns.get_loc`); the column count when the
name is absent (callers validate membership first). -/
def colIdx (df : DataFrame) (name : String) : Nat := df.colNames.indexOf name

/-- The dtype of the `i`-th column. -/
def dtypeAt (df : DataFrame) (i : Nat) : Dtype := df.dtypes.getD i .objectT

/-- The name of the `i`-th column. -/
def colNameAt (df : DataFrame) (i : Nat) : String := df.colNames.getD i ""

/-- The cells of the `i`-th column, in row order. -/
def colCells (df : DataFrame) (i : Nat) : List (Option Value) :=
  df.rows.map (fun r => r.getD i none)

/-- The cells of a named column. -/
def getCol (df : DataFrame) (name : String) : List (Option Value) :=
  colCells df (colIdx df name)

/-- The non-missing values of the `i`-th column (`dropna`). -/
def nonMissing (df : DataFrame) (i : Nat) : List Value :=
  (colCells df i).filterMap id

/-- The number of missing cells of the `i`-th column (`isnull().sum()`). -/
def missingCount (df : DataFrame) (i : Nat) : Nat :=
  (colCells df i).countP (fun c => c.isNone)

/-- `is numeric dtype` (`np.number`: `int64` or `float64`, not `bool`). -/
def isNumericDtype : Dtype → Bool
  | .int64 => true
  | .float64 => true
  | _ => false

/-- Indices of the numeric columns, in column order
(`select_dtypes(include=[np.number]).columns`). -/
def numericIdxs (df : DataFrame) : List Nat :=
  (List.range df.ncols).filter (fun i => isNumericDtype (dtypeAt df i))

/-- Indices of the `object`-dtype columns, in column order
(`select_dtypes(include=['object']).columns`). -/
def objectIdxs (df : DataFrame) : List Nat :=
  (List.range df.ncols).filter (fun i => dtypeAt df i == Dtype.objectT)

/-- The non-missing values of the `i`-th column read as rationals
(`dropna().tolist()` of a numeric column); string cells carry no number. -/
def ratVals (df : DataFrame) (i : Nat) : List ℚ :=
  (colCells df i).filterMap (fun c => c.bind toRatV)

/-- `Series.nunique()`: number of distinct non-missing values. -/
def nunique (df : DataFrame) (i : Nat) : Nat :=
  (dedupFirst (nonMissing df i)).length

/-- Sum of a list of rationals (skipping of missing values happens before the
call; pandas `sum` of an empty selection is `0`). -/
def ratSum (l : List ℚ) : ℚ := l.foldr (· + ·) 0

/-- pandas `Series.median()` over the non-missing values: middle element of
the sorted values, or the mean of the two middle elements; `none` (`NaN`) for
an empty series. -/
def medianQ (l : List ℚ) : Option ℚ :=
  let s := l.insertionSort (· ≤ ·)
  let n := s.length
  if n = 0 then none
  else if n % 2 = 1 then s.getD (n / 2) 0
  else some ((s.getD (n / 2 - 1) 0 + s.getD (n / 2) 0) / 2)

/-! ## Chart specifications

A plotly figure is abstracted to its list of traces (each trace keeping the
data series and the rendering hints the code sets) and its layout title. -/

/-- One plotly trace, keeping the data and the rendering hints the source
sets: `go.Bar` (optional trace name, x categories, y numbers), `go.Pie`
(labels, values), `go.Box` / `go.Violin` (trace name, y values), `go.Scatter`
(mode, optional fill hint, x and y series). -/
inductive TraceData where
  | barTr (nm : Option String) (xs : List Value) (ys : List ℚ)
  | pieTr (labels : List Value) (vals : List ℚ)
  | boxTr (nm : String) (ys : List ℚ)
  | violinTr (nm : String) (ys : List ℚ)
  | scatterTr (mode : String) (fill : Option String) (xs ys : List (Option Value))
deriving DecidableEq, Repr

/-- The abstracted plotly figure: traces plus layout title. -/
structure Figure where
  traces : List TraceData
  title : String
deriving DecidableEq, Repr

/-- One entry of `recommend_charts`: the dict
`{"column", "value_column"?, "chart_type", "reason", "priority"}`. -/
structure Rec where
  column : String
  valueColumn : Option String := none
  chartType : String
  reason : String
  priority : String
deriving DecidableEq, Repr

/-- The dict returned by a chart builder: its `"type"`, the role-tagged
column fields it carries (absent keys are `none`), the figure (`"data"`), and
the `"recommendation"` tag added by `generate_all_recommended_charts`. -/
structure Chart where
  ctype : String
  column : Option String := none
  valueColumn : Option String := none
  columns : List String := []
  groupBy : Option String := none
  fig : Figure
  recommendation : Option Rec := none
deriving DecidableEq, Repr

/-! ## Error messages of the source -/

/-- `f"Column '{column}' not found"`. -/
def colNotFoundMsg (c : String) : String :=
  "Column " ++ sq ++ c ++ sq ++ " not found"

/-- `f"Column '{column}' must be numeric (int or float). Current type: {t}"`. -/
def mustBeNumericMsg (c t : String) : String :=
  "Column " ++ sq ++ c ++ sq ++ " must be numeric (int or float). Current type: " ++ t

/-- `f"Column '{column}' has no valid numeric data"`. -/
def noValidDataMsg (c : String) : String :=
  "Column " ++ sq ++ c ++ sq ++ " has no valid numeric data"

/-- `f"Column '{column}' must be numeric for violin plot"`. -/
def violinNumericMsg (c : String) : String :=
  "Column " ++ sq ++ c ++ sq ++ " must be numeric for violin plot"

/-- `str(dtype)` for the dtypes of the model. -/
def dtypeStr : Dtype → String
  | .int64 => "int64"
  | .float64 => "float64"
  | .boolT => "bool"
  | .objectT => "object"

/-- Python truthiness of an optional string argument (`None` and `""` are
falsy). -/
def truthy : Option String → Bool
  | none => false
  | some s => s ≠ ""

/-! ## pandas aggregation helpers used by the builders -/

/-- `groupby(cat)[val]`: the list of (key, value-cell) pairs of rows whose
group key is present (pandas `groupby` drops rows with a missing key). -/
def keyedVals (df : DataFrame) (catIdx valIdx : Nat) : List (Value × Option Value) :=
  df.rows.filterMap (fun r =>
    match r.getD catIdx none with
    | some k => some (k, r.getD valIdx none)
    | none => none)

/-- The summed value for one group key: the sum of the non-missing values of
the rows carrying that key (pandas `sum` skips `NaN` and returns `0` for an
all-missing group). -/
def groupSum (pairs : List (Value × Option Value)) (k : Value) : ℚ :=
  ratSum (((pairs.filter (fun p => p.1 == k)).filterMap (fun p => p.2)).filterMap toRatV)

/-- `groupby(cat)[val].sum()`: one (key, sum) pair per distinct key, keys in
ascending order (pandas `groupby` sorts keys). -/
def groupbySum (df : DataFrame) (catIdx valIdx : Nat) : List (Value × ℚ) :=
  let pairs := keyedVals df catIdx valIdx
  let keys := (dedupFirst (pairs.map Prod.fst)).insertionSort (fun a b => vleB a b = true)
  keys.map (fun k => (k, groupSum pairs k))

/-- `.sort_values(ascending=False)` on a keyed numeric series, modelled as a
stable descending sort by the summed value. -/
def sortPairsDesc (l : List (Value × ℚ)) : List (Value × ℚ) :=
  l.insertionSort (fun a b => b.2 ≤ a.2)

/-- The (value, count) pairs of a column in first-occurrence order: the
hashtable pass of `Series.value_counts` (missing values dropped). -/
def countPairs (df : DataFrame) (i : Nat) : List (Value × Nat) :=
  (dedupFirst (nonMissing df i)).map (fun v => (v, (nonMissing df i).count v))

/-- `Series.value_counts()`: distinct non-missing values with their counts,
sorted by count descending, ties kept in first-occurrence order (pandas sorts
the hashtable counts with a stable sort). -/
def valueCounts (df : DataFrame) (i : Nat) : List (Value × Nat) :=
  (countPairs df i).insertionSort (fun a b => b.2 ≤ a.2)

/-- `value_counts` coerced to the (x, y) payload of a trace. -/
def countsToQ (l : List (Value × Nat)) : List (Value × ℚ) :=
  l.map (fun p => (p.1, (p.2 : ℚ)))

/-- `df.sort_values(by=x)` key order: row `a` may stay before row `b` when
`a`'s key is at most `b`'s; a missing key sorts last (`na_position='last'`).
The source leaves the sort kind at its default; no theorem below relies on
the order of ties. -/
def rowLeByCol (i : Nat) (a b : List (Option Value)) : Bool :=
  match a.getD i none, b.getD i none with
  | some x, some y => vleB x y
  | some _, none => true
  | none, some _ => false
  | none, none => true

/-- `df.sort_values(by=col)`: rows reordered by the key column ascending,
missing keys last. -/
def sortValues (df : DataFrame) (col : String) : DataFrame :=
  { df with rows := df.rows.insertionSort (fun a b => rowLeByCol (colIdx df col) a b = true) }

/-- The rows `pivot_table` retains: pandas groups by the index and columns
keys jointly (`groupby` with `dropna=True`), so any row whose key is missing
in either grouping column is dropped before the axis labels are
discovered. -/
def pivotRetained (df : DataFrame) (ci gi : Nat) : List (List (Option Value)) :=
  df.rows.filter (fun r => (r.getD ci none).isSome && (r.getD gi none).isSome)

/-- The labels of one pivot axis (`i` is the index column `ci` or the columns
column `gi`): the distinct values of that key column among the retained rows,
ascending (pandas `pivot_table` sorts its index and columns). -/
def pivotKeys (df : DataFrame) (ci gi i : Nat) : List Value :=
  (dedupFirst ((pivotRetained df ci gi).filterMap (fun r => r.getD i none))).insertionSort
    (fun a b => vleB a b = true)

/-- One pivot cell: the summed value over the rows matching both keys;
`fill_value=0` makes an absent combination `0`, which coincides with the sum
over an empty row selection. -/
def pivotCell (df : DataFrame) (valIdx catIdx grpIdx : Nat) (c g : Value) : ℚ :=
  ratSum ((df.rows.filterMap (fun r =>
    if r.getD catIdx none == some c && r.getD grpIdx none == some g
    then r.getD valIdx none else none)).filterMap toRatV)

/-! ## VisualizationService chart builders

Each builder returns its chart dict together with the dataframe `self.df`
holds when the method returns (explicit state passing of the class state). -/

/-- `VisualizationService.create_bar_chart(column, value_column=None, top_n=10)`. -/
def create_bar_chart (df : DataFrame) (column : String) (value_column : Option String)
    (top_n : Nat) : Except PyErr (Chart × DataFrame) :=
  if ¬ hasCol df column then
    .error (.valueError (colNotFoundMsg column))
  else
    let vcUsed := truthy value_column && hasCol df (value_column.getD "")
    let grouped : List (Value × ℚ) :=
      if vcUsed then
        (sortPairsDesc (groupbySum df (colIdx df column)
          (colIdx df (value_column.getD "")))).take top_n
      else
        countsToQ ((valueCounts df (colIdx df column)).take top_n)
    let title :=
      if vcUsed then "Total " ++ value_column.getD "" ++ " by " ++ column
      else "Count by " ++ column
    .ok ({ ctype := "bar", column := some column, valueColumn := value_column,
           fig := { traces := [.barTr none (grouped.map Prod.fst) (grouped.map Prod.snd)],
                    title := title } }, df)

/-- `VisualizationService.create_pie_chart(column, value_column=None, top_n=8)`. -/
def create_pie_chart (df : DataFrame) (column : String) (value_column : Option String)
    (top_n : Nat) : Except PyErr (Chart × DataFrame) :=
  if ¬ hasCol df column then
    .error (.valueError (colNotFoundMsg column))
  else
    let vcUsed := truthy value_column && hasCol df (value_column.getD "")
    let grouped : List (Value × ℚ) :=
      if vcUsed then
        (sortPairsDesc (groupbySum df (colIdx df column)
          (colIdx df (value_column.getD "")))).take top_n
      else
        countsToQ ((valueCounts df (colIdx df column)).take top_n)
    let title :=
      if vcUsed then "Total " ++ value_column.getD "" ++ " by " ++ column
      else "Distribution of " ++ column
    .ok ({ ctype := "pie", column := some column, valueColumn := value_column,
           fig := { traces := [.pieTr (grouped.map Prod.fst) (grouped.map Prod.snd)],
                    title := title } }, df)

/-- `VisualizationService.create_box_plot(column)`. -/
def create_box_plot (df : DataFrame) (column : String) : Except PyErr (Chart × DataFrame) :=
  if ¬ hasCol df column then
    .error (.valueError (colNotFoundMsg column))
  else if ¬ isNumericDtype (dtypeAt df (colIdx df column)) then
    .error (.valueError (mustBeNumericMsg column (dtypeStr (dtypeAt df (colIdx df column)))))
  else
    let data := ratVals df (colIdx df column)
    if data.length = 0 then
      .error (.valueError (noValidDataMsg column))
    else
      .ok ({ ctype := "box", column := some column,
             fig := { traces := [.boxTr column data],
                      title := "Box Plot of " ++ column } }, df)

/-- `VisualizationService.create_grouped_bar_chart(category_column, value_column, group_column)`.
Validation is a single disjunctive check raising one generic message. -/
def create_grouped_bar_chart (df : DataFrame) (category_column value_column group_column : String) :
    Except PyErr (Chart × DataFrame) :=
  if ¬ hasCol df category_column || ¬ hasCol df value_column || ¬ hasCol df group_column then
    .error (.valueError "One or more columns not found")
  else
    let ci := colIdx df category_column
    let vi := colIdx df value_column
    let gi := colIdx df group_column
    let cats := pivotKeys df ci gi ci
    let grps := pivotKeys df ci gi gi
    .ok ({ ctype := "grouped_bar",
           columns := [category_column, value_column, group_column],
           fig := { traces := grps.map (fun g =>
                      .barTr (some (valueToStr g)) cats
                        (cats.map (fun c => pivotCell df vi ci gi c g))),
                    title := value_column ++ " by " ++ category_column ++
                      " (grouped by " ++ group_column ++ ")" } }, df)

/-- `VisualizationService.create_stacked_bar_chart(x_column, y_column, stack_column)`. -/
def create_stacked_bar_chart (df : DataFrame) (x_column y_column stack_column : String) :
    Except PyErr (Chart × DataFrame) :=
  if ¬ hasCol df x_column || ¬ hasCol df y_column || ¬ hasCol df stack_column then
    .error (.valueError "One or more columns not found")
  else
    let ci := colIdx df x_column
    let vi := colIdx df y_column
    let gi := colIdx df stack_column
    let cats := pivotKeys df ci gi ci
    let grps := pivotKeys df ci gi gi
    .ok ({ ctype := "stacked_bar",
           columns := [x_column, y_column, stack_column],
           fig := { traces := grps.map (fun g =>
                      .barTr (some (valueToStr g)) cats
                        (cats.map (fun c => pivotCell df vi ci gi c g))),
                    title := y_column ++ " by " ++ x_column ++
                      " (Stacked by " ++ stack_column ++ ")" } }, df)

/-- `VisualizationService.create_line_chart(x_column, y_column)`. -/
def create_line_chart (df : DataFrame) (x_column y_column : String) :
    Except PyErr (Chart × DataFrame) :=
  if ¬ hasCol df x_column || ¬ hasCol df y_column then
    .error (.valueError "One or both columns not found")
  else
    let dfs := sortValues df x_column
    .ok ({ ctype := "line", columns := [x_column, y_column],
           fig := { traces := [.scatterTr "lines+markers" none
                      (getCol dfs x_column) (getCol dfs y_column)],
                    title := y_column ++ " over " ++ x_column } }, df)

/-- `VisualizationService.create_area_chart(x_column, y_column)`. -/
def create_area_chart (df : DataFrame) (x_column y_column : String) :
    Except PyErr (Chart × DataFrame) :=
  if ¬ hasCol df x_column || ¬ hasCol df y_column then
    .error (.valueError "One or both columns not found")
  else
    let dfs := sortValues df x_column
    .ok ({ ctype := "area", columns := [x_column, y_column],
           fig := { traces := [.scatterTr "lines" (some "tozeroy")
                      (getCol dfs x_column) (getCol dfs y_column)],
                    title := y_column ++ " over " ++ x_column ++ " (Area Chart)" } }, df)

/-- The per-group data series of a grouped violin plot: groups in discovery
order (`Series.unique()`, which keeps a missing value as a key), each group
selecting the rows whose key equals it (`== NaN` matches nothing, so a
missing key yields an empty series), named by `str(group)`. -/
def violinGroups (df : DataFrame) (valIdx grpIdx : Nat) : List (String × List ℚ) :=
  (dedupFirst (colCells df grpIdx)).map (fun g =>
    (match g with
     | some v => valueToStr v
     | none => "nan",
     ((df.rows.filterMap (fun r =>
        match g, r.getD grpIdx none with
        | some gv, some rv => if gv == rv then some (r.getD valIdx none) else none
        | _, _ => none)).filterMap id).filterMap toRatV))

/-- `VisualizationService.create_violin_plot(column, group_by=None)`.  No
emptiness check is performed on the retained data. -/
def create_violin_plot (df : DataFrame) (column : String) (group_by : Option String) :
    Except PyErr (Chart × DataFrame) :=
  if ¬ hasCol df column then
    .error (.valueError (colNotFoundMsg column))
  else if ¬ isNumericDtype (dtypeAt df (colIdx df column)) then
    .error (.valueError (violinNumericMsg column))
  else
    let gused := truthy group_by && hasCol df (group_by.getD "")
    let traces :=
      if gused then
        (violinGroups df (colIdx df column) (colIdx df (group_by.getD ""))).map
          (fun p => TraceData.violinTr p.1 p.2)
      else
        [TraceData.violinTr column (ratVals df (colIdx df column))]
    let title :=
      if gused then "Distribution of " ++ column ++ " by " ++ group_by.getD ""
      else "Distribution of " ++ column ++ " (Violin Plot)"
    .ok ({ ctype := "violin", column := some column, groupBy := group_by,
           fig := { traces := traces, title := title } }, df)

/-! ## Recommender -/

/-- The value-column keywords of `recommend_charts`. -/
def recKeywords : List String := ["sales", "revenue", "amount", "price", "total", "value"]

/-- Substring occurrence at any position, by structural recursion on the
searched text. -/
def containsSub (pat : List Char) : List Char → Bool
  | [] => pat.isEmpty
  | c :: t => pat.isPrefixOf (c :: t) || containsSub pat t

/-- `pat in s` for strings (Python substring test). -/
def strContains (s pat : String) : Bool := containsSub pat.data s.data

/-- `VisualizationService.recommend_charts()`: for each `object` column with
fewer than 15 distinct values, pick a value column (first numeric column whose
lowercased name contains a keyword, else the first numeric column); emit a
high-priority bar recommendation and, when the distinct count is at most 8, a
high-priority pie recommendation.  Then one medium-priority box
recommendation per numeric column. -/
def recommend_charts (df : DataFrame) : List Rec :=
  let numericCols := numericIdxs df |>.map (colNameAt df)
  let categoricalCols := objectIdxs df |>.map (colNameAt df)
  let catRecs := categoricalCols.flatMap (fun catCol =>
    let uniqueCount := nunique df (colIdx df catCol)
    if uniqueCount < 15 then
      let byKeyword := numericCols.find? (fun nc =>
        recKeywords.any (fun kw => strContains nc.toLower kw))
      let valueCol :=
        if ¬ truthy byKeyword && numericCols.length > 0 then numericCols.head?
        else byKeyword
      if truthy valueCol then
        let vc := valueCol.getD ""
        [{ column := catCol, valueColumn := valueCol, chartType := "bar",
           reason := "Shows total " ++ vc ++ " for each " ++ catCol,
           priority := "high" }] ++
        (if uniqueCount ≤ 8 then
          [{ column := catCol, valueColumn := valueCol, chartType := "pie",
             reason := "Shows proportion of " ++ vc ++ " by " ++ catCol,
             priority := "high" }]
         else [])
      else []
    else [])
  let boxRecs := numericCols.map (fun col =>
    { column := col, chartType := "box",
      reason := "Shows statistical distribution of " ++ col,
      priority := "medium" : Rec })
  catRecs ++ boxRecs

/-- One iteration of the `generate_all_recommended_charts` loop as a pure
function of the dataframe: the chart the recommendation builds, tagged with
the recommendation, or `none` when construction raises (or when the chart
type is not one of bar/pie/box). -/
def tryBuild (df : DataFrame) (rec : Rec) : Option Chart :=
  if rec.chartType == "bar" then
    match create_bar_chart df rec.column rec.valueColumn 10 with
    | .ok p => some { p.1 with recommendation := some rec }
    | .error _ => none
  else if rec.chartType == "pie" then
    match create_pie_chart df rec.column rec.valueColumn 8 with
    | .ok p => some { p.1 with recommendation := some rec }
    | .error _ => none
  else if rec.chartType == "box" then
    match create_box_plot df rec.column with
    | .ok p => some { p.1 with recommendation := some rec }
    | .error _ => none
  else none

/-- The loop of `generate_all_recommended_charts`: each iteration runs inside
`try/except`, so a failing construction is skipped and the loop continues
with the next recommendation; the class state threads through the calls. -/
def genLoop : List Rec → DataFrame → List Chart × DataFrame
  | [], df => ([], df)
  | rec :: rest, df =>
    if rec.chartType == "bar" then
      match create_bar_chart df rec.column rec.valueColumn 10 with
      | .ok p =>
        let out := genLoop rest p.2
        ({ p.1 with recommendation := some rec } :: out.1, out.2)
      | .error _ => genLoop rest df
    else if rec.chartType == "pie" then
      match create_pie_chart df rec.column rec.valueColumn 8 with
      | .ok p =>
        let out := genLoop rest p.2
        ({ p.1 with recommendation := some rec } :: out.1, out.2)
      | .error _ => genLoop rest df
    else if rec.chartType == "box" then
      match create_box_plot df rec.column with
      | .ok p =>
        let out := genLoop rest p.2
        ({ p.1 with recommendation := some rec } :: out.1, out.2)
      | .error _ => genLoop rest df
    else genLoop rest df

/-- `VisualizationService.generate_all_recommended_charts()`. -/
def generate_all_recommended_charts (df : DataFrame) : List Chart × DataFrame :=
  genLoop (recommend_charts df) df

/-! ## DataProcessor: type inference -/

/-- `DataProcessor._is_date_column(column)`: the fraction of cells parseable
as dates must strictly exceed `0.5`.  `dateOk` is the success predicate of
`pd.to_datetime(value, errors='coerce')` on a single non-missing value (left
abstract; a missing cell is never a valid date).  On a zero-row frame the
numpy quotient is `nan`, the comparison is `False`, and any exception is
swallowed by the `try/except`, so the result is `false`. -/
def _is_date_column (dateOk : Value → Bool) (df : DataFrame) (i : Nat) : Bool :=
  if df.rows.length = 0 then false
  else decide ((((colCells df i).countP (fun c => (c.map dateOk).getD false) : ℚ) /
    (df.rows.length : ℚ)) > 1 / 2)

/-- `DataProcessor._is_categorical(column)`: `nunique() / len(df) < 0.05`.
Both operands are Python ints, so a zero-row frame raises
`ZeroDivisionError` (`0 / 0`). -/
def _is_categorical (df : DataFrame) (i : Nat) : Except PyErr Bool :=
  if df.rows.length = 0 then .error .zeroDivisionError
  else .ok (decide (((nunique df i : ℚ) / (df.rows.length : ℚ)) < 1 / 20))

/-- The classification of one column in `DataProcessor._get_column_types`. -/
def columnTypeName (dateOk : Value → Bool) (df : DataFrame) (i : Nat) : Except PyErr String :=
  match dtypeAt df i with
  | .int64 => .ok "integer"
  | .float64 => .ok "float"
  | .boolT => .ok "boolean"
  | .objectT =>
    if _is_date_column dateOk df i then .ok "date"
    else match _is_categorical df i with
      | .error e => .error e
      | .ok true => .ok "category"
      | .ok false => .ok "text"

/-- `DataProcessor._get_column_types()`: the (name, type) pairs in column
order; an exception in a per-column check propagates. -/
def _get_column_types (dateOk : Value → Bool) (df : DataFrame) :
    Except PyErr (List (String × String)) :=
  (List.range df.ncols).mapM (fun i => do
    let t ← columnTypeName dateOk df i
    pure (colNameAt df i, t))

/-! ## DataProcessor: cleaning -/

/-- `df.duplicated().sum()`: the number of rows equal to an earlier row
(pandas treats `NaN` cells as equal for this purpose, as does `Option`
equality). -/
def dupCount (df : DataFrame) : Nat := df.rows.length - (dedupFirst df.rows).length

/-- `df.drop_duplicates()`: keep the first occurrence of each row. -/
def drop_duplicates (df : DataFrame) : DataFrame := { df with rows := dedupFirst df.rows }

/-- Fill the missing cells of column `i` with `fill`; filling with a missing
value (`fillna(NaN)`) changes nothing. -/
def fillCol (df : DataFrame) (i : Nat) (fill : Option Value) : DataFrame :=
  { df with rows := df.rows.map (fun r =>
      match r.getD i none with
      | some _ => r
      | none => r.set i fill) }

/-- `Series.mode()[0]` when it exists: pandas `mode` lists the most frequent
non-missing values in ascending order, so the first entry is the smallest
value of maximal frequency; `none` when the column has no non-missing value. -/
def modeValue (df : DataFrame) (i : Nat) : Option Value :=
  let vals := nonMissing df i
  let cnts := (dedupFirst vals).map (fun v => (v, vals.count v))
  let maxCnt := (cnts.map Prod.snd).foldr max 0
  (((cnts.filter (fun p => p.2 == maxCnt)).map Prod.fst).insertionSort
    (fun a b => vleB a b = true)).head?

/-- `f"Removed {n} duplicate rows"`. -/
def removedMsg (n : Nat) : String := "Removed " ++ toString n ++ " duplicate rows"

/-- `f"Filled {n} missing values in '{col}' with median"`. -/
def filledMedianMsg (n : Nat) (col : String) : String :=
  "Filled " ++ toString n ++ " missing values in " ++ sq ++ col ++ sq ++ " with median"

/-- `f"Filled {n} missing values in '{col}' with '{fv}'"`. -/
def filledModeMsg (n : Nat) (col : String) (fv : String) : String :=
  "Filled " ++ toString n ++ " missing values in " ++ sq ++ col ++ sq ++
    " with " ++ sq ++ fv ++ sq

/-- The numeric-column loop of `clean_data`: for each numeric column with
missing values, fill with that column's median (computed on the current
state, before this column's own fill) and log the action. -/
def fillNumericLoop : List Nat → DataFrame → List String → DataFrame × List String
  | [], df, acts => (df, acts)
  | i :: rest, df, acts =>
    let m := missingCount df i
    if 0 < m then
      let med := medianQ (ratVals df i)
      fillNumericLoop rest (fillCol df i (med.map Value.vRat))
        (acts ++ [filledMedianMsg m (colNameAt df i)])
    else fillNumericLoop rest df acts

/-- The text-column loop of `clean_data`: for each `object` column with
missing values, fill with the mode (or the literal `"Unknown"` when the
column has no non-missing value) and log the action. -/
def fillTextLoop : List Nat → DataFrame → List String → DataFrame × List String
  | [], df, acts => (df, acts)
  | i :: rest, df, acts =>
    let m := missingCount df i
    if 0 < m then
      let fv := (modeValue df i).getD (Value.vStr "Unknown")
      fillTextLoop rest (fillCol df i (some fv))
        (acts ++ [filledModeMsg m (colNameAt df i) (valueToStr fv)])
    else fillTextLoop rest df acts

/-- The report built by `DataProcessor.clean_data`. -/
structure CleaningReport where
  originalRows : Nat
  actions : List String
  finalRows : Nat
  rowsRemoved : Int
deriving DecidableEq, Repr

/-- `DataProcessor.clean_data()`: remove exact duplicate rows when any exist
(logging the count), then impute numeric columns with their medians and
`object` columns with their modes (or `"Unknown"`), logging each fill; the
report carries the original and final row counts and their difference. -/
def clean_data (df : DataFrame) : CleaningReport × DataFrame :=
  let originalRows := df.rows.length
  let duplicates := dupCount df
  let df1 := if 0 < duplicates then drop_duplicates df else df
  let acts1 := if 0 < duplicates then [removedMsg duplicates] else []
  let st2 := fillNumericLoop (numericIdxs df1) df1 acts1
  let st3 := fillTextLoop (objectIdxs st2.1) st2.1 st2.2
  ({ originalRows := originalRows, actions := st3.2, finalRows := st3.1.rows.length,
     rowsRemoved := (originalRows : Int) - (st3.1.rows.length : Int) }, st3.1)

/-! ## Extractors and concrete tables used by the theorems -/

/-- The (x, y) pairs of a plain bar trace of a chart. -/
def barData (c : Chart) : List (Value × ℚ) :=
  match c.fig.traces with
  | [.barTr _ xs ys] => xs.zip ys
  | _ => []

/-- The (name, data) series of the violin traces of a chart. -/
def violinSeries (c : Chart) : List (String × List ℚ) :=
  c.fig.traces.filterMap (fun t =>
    match t with
    | .violinTr nm ys => some (nm, ys)
    | _ => none)

/-- A one-column category table holding `["a","b","a","c","b","a"]`. -/
def tblCat : DataFrame :=
  { colNames := ["cat"], dtypes := [.objectT],
    rows := [[some (.vStr "a")], [some (.vStr "b")], [some (.vStr "a")],
             [some (.vStr "c")], [some (.vStr "b")], [some (.vStr "a")]] }

/-- The table of the grouped-bar example: category `["x","x","y"]`,
value `[10,20,5]`, group `["g1","g2","g1"]`. -/
def tblPivot : DataFrame :=
  { colNames := ["cat", "val", "grp"], dtypes := [.objectT, .int64, .objectT],
    rows := [[some (.vStr "x"), some (.vInt 10), some (.vStr "g1")],
             [some (.vStr "x"), some (.vInt 20), some (.vStr "g2")],
             [some (.vStr "y"), some (.vInt 5), some (.vStr "g1")]] }

/-- A pivot table in which the category `"y"` co-occurs only with a missing
group key: category `["x","y"]`, value `[10,5]`, group `["g1", NaN]`. -/
def tblPivotNaN : DataFrame :=
  { colNames := ["cat", "val", "grp"], dtypes := [.objectT, .int64, .objectT],
    rows := [[some (.vStr "x"), some (.vInt 10), some (.vStr "g1")],
             [some (.vStr "y"), some (.vInt 5), none]] }

/-- A one-column `object` table with zero rows. -/
def tblEmpty : DataFrame := { colNames := ["c"], dtypes := [.objectT], rows := [] }

/-- A one-column `float64` table whose single value is missing. -/
def tblAllNaN : DataFrame := { colNames := ["v"], dtypes := [.float64], rows := [[none]] }

/-- A one-column `float64` table holding `[1.0, 1.0, NaN]`: cleaning it
dedups to `[1.0, NaN]` and imputes the median `1.0`, creating a fresh
duplicate pair. -/
def tblClean : DataFrame :=
  { colNames := ["a"], dtypes := [.float64],
    rows := [[some (.vRat 1)], [some (.vRat 1)], [none]] }

/-- The output table of the first `clean_data` on `tblClean`. -/
def tblClean1 : DataFrame := (clean_data tblClean).2

/-- The chart of a successful builder call. -/
def chartOf (r : Except PyErr (Chart × DataFrame)) : Option Chart :=
  r.toOption.map Prod.fst

/-- The dataframe `self.df` holds after a builder call (the incoming frame
when the call raised). -/
def stateAfter (r : Except PyErr (Chart × DataFrame)) (df : DataFrame) : DataFrame :=
  match r with
  | .ok p => p.2
  | .error _ => df

/-- Replace the `value_column` field of the chart of a successful call. -/
def mapVC (r : Except PyErr (Chart × DataFrame)) (vc : String) :
    Except PyErr (Chart × DataFrame) :=
  match r with
  | .ok p => .ok ({ p.1 with valueColumn := some vc }, p.2)
  | .error e => .error e

/-- `True` when no cell of the frame is missing. -/
def noMissingB (df : DataFrame) : Bool :=
  (List.range df.ncols).all (fun i => missingCount df i == 0)

/-- Substring containment check used to state that an error message does or
does not name a column. -/
def mentions (msg nm : String) : Bool := strContains msg nm

instance {ε α : Type} [DecidableEq ε] [DecidableEq α] : DecidableEq (Except ε α)
  | .ok a, .ok b =>
    if h : a = b then .isTrue (by rw [h])
    else .isFalse (by intro hh; injection hh; exact h (by assumption))
  | .ok _, .error _ => .isFalse (by intro hh; exact Except.noConfusion hh)
  | .error _, .ok _ => .isFalse (by intro hh; exact Except.noConfusion hh)
  | .error e, .error f =>
    if h : e = f then .isTrue (by rw [h])
    else .isFalse (by intro hh; injection hh; exact h (by assumption))

instance : IsTotal (Value × Nat) (fun a b => b.2 ≤ a.2) :=
  ⟨fun a b => Nat.le_total b.2 a.2⟩

instance : IsTrans (Value × Nat) (fun a b => b.2 ≤ a.2) :=
  ⟨fun _ _ _ h1 h2 => Nat.le_trans h2 h1⟩

/-! ## Shared helper lemmas -/

theorem zip_fst_snd {α β : Type} (l : List (α × β)) :
    (l.map Prod.fst).zip (l.map Prod.snd) = l := by
  have h := List.zip_unzip l
  rwa [List.unzip_eq_map] at h

theorem mem_dedupFirstAux {α : Type} [DecidableEq α] {a : α} :
    ∀ {l seen : List α}, a ∈ dedupFirstAux l seen → a ∈ l := by
  intro l
  induction l with
  | nil => intro seen h; exact absurd h (List.not_mem_nil a)
  | cons x xs ih =>
    intro seen h
    rw [dedupFirstAux] at h
    split at h
    · exact List.mem_cons_of_mem _ (ih h)
    · rcases List.mem_cons.mp h with h1 | h1
      · exact h1 ▸ List.mem_cons_self x xs
      · exact List.mem_cons_of_mem _ (ih h1)

theorem mem_dedupFirst {α : Type} [DecidableEq α] {a : α} {l : List α}
    (h : a ∈ dedupFirst l) : a ∈ l :=
  mem_dedupFirstAux h

theorem frame_bar {df : DataFrame} {c : String} {vc : Option String} {n : Nat}
    {p : Chart × DataFrame} (h : create_bar_chart df c vc n = .ok p) : p.2 = df := by
  unfold create_bar_chart at h
  split at h
  · exact Except.noConfusion h
  · injection h with h1; subst h1; rfl

theorem frame_pie {df : DataFrame} {c : String} {vc : Option String} {n : Nat}
    {p : Chart × DataFrame} (h : create_pie_chart df c vc n = .ok p) : p.2 = df := by
  unfold create_pie_chart at h
  split at h
  · exact Except.noConfusion h
  · injection h with h1; subst h1; rfl

theorem frame_box {df : DataFrame} {c : String}
    {p : Chart × DataFrame} (h : create_box_plot df c = .ok p) : p.2 = df := by
  unfold create_box_plot at h
  split at h
  · exact Except.noConfusion h
  · split at h
    · exact Except.noConfusion h
    · dsimp only at h
      split at h
      · exact Except.noConfusion h
      · injection h with h1; subst h1; rfl

theorem frame_violin {df : DataFrame} {c : String} {g : Option String}
    {p : Chart × DataFrame} (h : create_violin_plot df c g = .ok p) : p.2 = df := by
  unfold create_violin_plot at h
  split at h
  · exact Except.noConfusion h
  · split at h
    · exact Except.noConfusion h
    · injection h with h1; subst h1; rfl

theorem frame_grouped {df : DataFrame} {x y z : String}
    {p : Chart × DataFrame} (h : create_grouped_bar_chart df x y z = .ok p) : p.2 = df := by
  unfold create_grouped_bar_chart at h
  split at h
  · exact Except.noConfusion h
  · injection h with h1; subst h1; rfl

theorem frame_stacked {df : DataFrame} {x y z : String}
    {p : Chart × DataFrame} (h : create_stacked_bar_chart df x y z = .ok p) : p.2 = df := by
  unfold create_stacked_bar_chart at h
  split at h
  · exact Except.noConfusion h
  · injection h with h1; subst h1; rfl

theorem frame_line {df : DataFrame} {x y : String}
    {p : Chart × DataFrame} (h : create_line_chart df x y = .ok p) : p.2 = df := by
  unfold create_line_chart at h
  split at h
  · exact Except.noConfusion h
  · injection h with h1; subst h1; rfl

theorem frame_area {df : DataFrame} {x y : String}
    {p : Chart × DataFrame} (h : create_area_chart df x y = .ok p) : p.2 = df := by
  unfold create_area_chart at h
  split at h
  · exact Except.noConfusion h
  · injection h with h1; subst h1; rfl

theorem fillNumericLoop_no_missing (idxs : List Nat) (df : DataFrame) (acts : List String)
    (h : ∀ i ∈ idxs, missingCount df i = 0) : fillNumericLoop idxs df acts = (df, acts) := by
  induction idxs with
  | nil => rfl
  | cons i rest ih =>
    have h0 : missingCount df i = 0 := h i (List.mem_cons_self i rest)
    simp only [fillNumericLoop, h0, Nat.lt_irrefl, if_false]
    exact ih (fun j hj => h j (List.mem_cons_of_mem _ hj))

theorem fillTextLoop_no_missing (idxs : List Nat) (df : DataFrame) (acts : List String)
    (h : ∀ i ∈ idxs, missingCount df i = 0) : fillTextLoop idxs df acts = (df, acts) := by
  induction idxs with
  | nil => rfl
  | cons i rest ih =>
    have h0 : missingCount df i = 0 := h i (List.mem_cons_self i rest)
    simp only [fillTextLoop, h0, Nat.lt_irrefl, if_false]
    exact ih (fun j hj => h j (List.mem_cons_of_mem _ hj))

/-! ## C2: type inference on a zero-row table -/

/-- C2: the claim says type inference of a free-form (`object`) column of a
zero-row table must not raise and must classify the column as `text`.  The
code instead divides `0 / 0` in `_is_categorical` (two Python ints), raising
`ZeroDivisionError`, which `_get_column_types` propagates — for any date
parser, since the date check short-circuits to `False` on an empty frame. -/
theorem empty_table_type_inference_raises (dateOk : Value → Bool) :
    _is_categorical tblEmpty 0 = .error .zeroDivisionError ∧
    _get_column_types dateOk tblEmpty = .error .zeroDivisionError :=
  ⟨rfl, rfl⟩

/-! ## C3: box and violin on an entirely missing numeric column -/

/-- C3 counterexample: on a `float64` column whose every value is missing,
`create_violin_plot` does not fail; it returns a violin chart whose data
series is empty, refuting the claim that both box and violin fail with an
empty-column error. -/
theorem violin_all_missing_returns_chart :
    ratVals tblAllNaN 0 = [] ∧
    create_violin_plot tblAllNaN "v" none =
      .ok ({ ctype := "violin", column := some "v", groupBy := none,
             fig := { traces := [.violinTr "v" []],
                      title := "Distribution of v (Violin Plot)" } }, tblAllNaN) := by
  exact ⟨rfl, rfl⟩

/-- C3 amended: on a numeric column whose values are all missing, the box
plot drops the missing values and fails (`ValueError` naming the column with
"no valid numeric data"), while the violin plot performs no emptiness check
and returns a chart whose single data series is empty. -/
theorem box_errors_violin_silent_on_all_missing (df : DataFrame) (col : String)
    (h1 : hasCol df col = true)
    (h2 : isNumericDtype (dtypeAt df (colIdx df col)) = true)
    (h3 : ratVals df (colIdx df col) = []) :
    create_box_plot df col = .error (.valueError (noValidDataMsg col)) ∧
    (chartOf (create_violin_plot df col none)).map violinSeries = some [(col, [])] := by
  constructor
  · unfold create_box_plot
    simp [h1, h2, h3]
  · unfold create_violin_plot
    simp only [h1, h2, h3, chartOf, violinSeries, truthy]
    simp [h1, h2, h3]
    exact ⟨_, ⟨df, rfl⟩, rfl⟩

/-- C3 witness: the amended statement at the all-missing float table. -/
theorem box_errors_violin_silent_on_all_missing_witness :
    create_box_plot tblAllNaN "v" = .error (.valueError (noValidDataMsg "v")) ∧
    (chartOf (create_violin_plot tblAllNaN "v" none)).map violinSeries = some [("v", [])] :=
  box_errors_violin_silent_on_all_missing tblAllNaN "v" (by decide) (by decide) (by decide)

/-! ## C4: cleaning is not idempotent -/

/-- C4 counterexample: cleaning `[1.0, 1.0, NaN]` dedups to `[1.0, NaN]` and
fills the median `1.0`, producing `[1.0, 1.0]`; the second clean therefore
removes a duplicate row again: its report logs one action and one removed
row, and its table differs from its input — refuting idempotence. -/
theorem second_clean_not_noop :
    (clean_data tblClean1).1.actions = [removedMsg 1] ∧
    (clean_data tblClean1).1.rowsRemoved = 1 ∧
    (clean_data tblClean1).2 ≠ tblClean1 := by
  refine ⟨rfl, rfl, ?_⟩
  decide

/-- C4 amended: `clean_data` is a no-op (identical table, zero actions, zero
rows removed) on any table that has no duplicate rows and no missing cells.
Hence a second clean is a no-op exactly when the first clean's output still
has that shape; in general the first clean's imputation can create fresh
duplicates (and an all-missing numeric column keeps its missing cells), so
idempotence fails. -/
theorem clean_noop_on_clean_table (df : DataFrame)
    (hdup : dedupFirst df.rows = df.rows) (hmiss : noMissingB df = true) :
    clean_data df = ({ originalRows := df.rows.length, actions := [],
                       finalRows := df.rows.length, rowsRemoved := 0 }, df) := by
  have hd : dupCount df = 0 := by unfold dupCount; rw [hdup, Nat.sub_self]
  have hm : ∀ i ∈ List.range df.ncols, missingCount df i = 0 := by
    intro i hi
    have := List.all_eq_true.mp hmiss i hi
    simpa using this
  have hnum : fillNumericLoop (numericIdxs df) df [] = (df, []) :=
    fillNumericLoop_no_missing _ _ _
      (fun i hi => hm i (List.mem_filter.mp hi).1)
  have htxt : fillTextLoop (objectIdxs df) df [] = (df, []) :=
    fillTextLoop_no_missing _ _ _
      (fun i hi => hm i (List.mem_filter.mp hi).1)
  simp only [clean_data, hd, Nat.lt_irrefl, if_false, hnum, htxt]
  simp

/-- C4 witness: the no-op statement at a concrete duplicate-free,
fully-present table. -/
theorem clean_noop_on_clean_table_witness :
    clean_data tblPivot = ({ originalRows := 3, actions := [],
                             finalRows := 3, rowsRemoved := 0 }, tblPivot) :=
  clean_noop_on_clean_table tblPivot (by decide) (by decide)

theorem stateAfter_of_frame {r : Except PyErr (Chart × DataFrame)} {df : DataFrame}
    (h : ∀ p, r = .ok p → p.2 = df) : stateAfter r df = df := by
  cases r with
  | ok p => exact h p rfl
  | error e => rfl

/-! ## C9: chart builders never mutate the table -/

/-- C9: every chart-building method leaves `self.df` exactly as it found it:
for each of the eight builders, the dataframe held after the call equals the
incoming dataframe (building a chart specification never mutates the
table). -/
theorem chart_builders_preserve_table (df : DataFrame) (c x y z : String)
    (vc g : Option String) (n : Nat) :
    stateAfter (create_bar_chart df c vc n) df = df ∧
    stateAfter (create_pie_chart df c vc n) df = df ∧
    stateAfter (create_box_plot df c) df = df ∧
    stateAfter (create_violin_plot df c g) df = df ∧
    stateAfter (create_line_chart df x y) df = df ∧
    stateAfter (create_area_chart df x y) df = df ∧
    stateAfter (create_grouped_bar_chart df x y z) df = df ∧
    stateAfter (create_stacked_bar_chart df x y z) df = df :=
  ⟨stateAfter_of_frame (fun _ hp => frame_bar hp),
   stateAfter_of_frame (fun _ hp => frame_pie hp),
   stateAfter_of_frame (fun _ hp => frame_box hp),
   stateAfter_of_frame (fun _ hp => frame_violin hp),
   stateAfter_of_frame (fun _ hp => frame_line hp),
   stateAfter_of_frame (fun _ hp => frame_area hp),
   stateAfter_of_frame (fun _ hp => frame_grouped hp),
   stateAfter_of_frame (fun _ hp => frame_stacked hp)⟩

/-! ## C1: validation errors and the naming of missing columns -/

/-- C1 counterexample: a grouped-bar request referencing the absent columns
`"zzz"` and `"www"` fails with the fixed message `"One or more columns not
found"`, which names neither missing column — refuting the claim that the
error always lists every missing name. -/
theorem grouped_bar_error_names_no_column :
    hasCol tblCat "zzz" = false ∧ hasCol tblCat "www" = false ∧
    create_grouped_bar_chart tblCat "cat" "zzz" "www" =
      .error (.valueError "One or more columns not found") ∧
    mentions "One or more columns not found" "zzz" = false ∧
    mentions "One or more columns not found" "www" = false := by
  decide

/-- C1 amended: every chart builder fails when a required column is missing,
but only the single-required-column builders (bar, pie, box, violin) name the
missing column in the error; the multi-column builders raise a generic
message naming no column (`"One or more columns not found"` for grouped and
stacked bars, `"One or both columns not found"` for line and area).
Optional columns (bar/pie value column, violin group) are not validated. -/
theorem column_validation_errors (df : DataFrame) (c x y z : String)
    (vc g : Option String) (n : Nat) :
    (hasCol df c = false →
      create_bar_chart df c vc n = .error (.valueError (colNotFoundMsg c)) ∧
      create_pie_chart df c vc n = .error (.valueError (colNotFoundMsg c)) ∧
      create_box_plot df c = .error (.valueError (colNotFoundMsg c)) ∧
      create_violin_plot df c g = .error (.valueError (colNotFoundMsg c))) ∧
    ((hasCol df x = false ∨ hasCol df y = false ∨ hasCol df z = false) →
      create_grouped_bar_chart df x y z = .error (.valueError "One or more columns not found") ∧
      create_stacked_bar_chart df x y z = .error (.valueError "One or more columns not found")) ∧
    ((hasCol df x = false ∨ hasCol df y = false) →
      create_line_chart df x y = .error (.valueError "One or both columns not found") ∧
      create_area_chart df x y = .error (.valueError "One or both columns not found")) := by
  refine ⟨fun hc => ?_, fun hxyz => ?_, fun hxy => ?_⟩
  · unfold create_bar_chart create_pie_chart create_box_plot create_violin_plot
    simp [hc]
  · unfold create_grouped_bar_chart create_stacked_bar_chart
    rcases hxyz with h | h | h <;> simp [h]
  · unfold create_line_chart create_area_chart
    rcases hxy with h | h <;> simp [h]

/-- C1 witness: the amended statement applied at concrete missing columns. -/
theorem column_validation_errors_witness :
    create_bar_chart tblCat "zzz" none 10 = .error (.valueError (colNotFoundMsg "zzz")) ∧
    create_grouped_bar_chart tblCat "cat" "zzz" "www" =
      .error (.valueError "One or more columns not found") ∧
    create_line_chart tblCat "zzz" "cat" = .error (.valueError "One or both columns not found") :=
  ⟨((column_validation_errors tblCat "zzz" "zzz" "cat" "www" none none 10).1 (by decide)).1,
   ((column_validation_errors tblCat "c" "cat" "zzz" "www" none none 10).2.1
      (Or.inr (Or.inl (by decide)))).1,
   ((column_validation_errors tblCat "c" "zzz" "cat" "www" none none 10).2.2
      (Or.inl (by decide))).1⟩

/-! ## C10: bar and pie with an absent value column -/

/-- C10 counterexample: on the category table, a bar chart requested with the
absent value column `"zzz"` succeeds but is not equal to the bar chart built
with no value column: the returned dict echoes `"zzz"` in its `value_column`
field. -/
theorem bar_missing_value_column_chart_differs :
    hasCol tblCat "zzz" = false ∧
    create_bar_chart tblCat "cat" (some "zzz") 10 ≠ create_bar_chart tblCat "cat" none 10 := by
  decide

/-- C10 amended: a bar or pie request whose value column is absent from the
table does not raise: it silently falls back to count mode, producing exactly
the chart built with no value column except that the returned spec's
`value_column` field echoes the supplied name. -/
theorem bar_pie_missing_value_column_fallback (df : DataFrame) (col vc : String) (n : Nat)
    (h : hasCol df vc = false) :
    create_bar_chart df col (some vc) n = mapVC (create_bar_chart df col none n) vc ∧
    create_pie_chart df col (some vc) n = mapVC (create_pie_chart df col none n) vc := by
  constructor
  · unfold create_bar_chart mapVC
    by_cases hcol : hasCol df col = true <;> simp [hcol, h, truthy]
  · unfold create_pie_chart mapVC
    by_cases hcol : hasCol df col = true <;> simp [hcol, h, truthy]

/-- C10 witness: the fallback statement at the concrete category table. -/
theorem bar_pie_missing_value_column_fallback_witness :
    create_bar_chart tblCat "cat" (some "zzz") 10 =
      mapVC (create_bar_chart tblCat "cat" none 10) "zzz" ∧
    create_pie_chart tblCat "cat" (some "zzz") 8 =
      mapVC (create_pie_chart tblCat "cat" none 8) "zzz" :=
  ⟨(bar_pie_missing_value_column_fallback tblCat "cat" "zzz" 10 (by decide)).1,
   (bar_pie_missing_value_column_fallback tblCat "cat" "zzz" 8 (by decide)).2⟩

theorem tryBuild_tag {df : DataFrame} {rec : Rec} {ch : Chart}
    (h : tryBuild df rec = some ch) : ch.recommendation = some rec := by
  unfold tryBuild at h
  split at h
  · cases hc : create_bar_chart df rec.column rec.valueColumn 10 with
    | ok p => rw [hc] at h; injection h with h1; subst h1; rfl
    | error e => rw [hc] at h; exact Option.noConfusion h
  · split at h
    · cases hc : create_pie_chart df rec.column rec.valueColumn 8 with
      | ok p => rw [hc] at h; injection h with h1; subst h1; rfl
      | error e => rw [hc] at h; exact Option.noConfusion h
    · split at h
      · cases hc : create_box_plot df rec.column with
        | ok p => rw [hc] at h; injection h with h1; subst h1; rfl
        | error e => rw [hc] at h; exact Option.noConfusion h
      · exact Option.noConfusion h

theorem genLoop_eq (recs : List Rec) (df : DataFrame) :
    genLoop recs df = (recs.filterMap (tryBuild df), df) := by
  induction recs with
  | nil => rfl
  | cons rec rest ih =>
    simp only [genLoop, tryBuild, List.filterMap_cons]
    split
    · cases hc : create_bar_chart df rec.column rec.valueColumn 10 with
      | ok p => simp [frame_bar hc, ih]
      | error e => simp [ih]
    · split
      · cases hc : create_pie_chart df rec.column rec.valueColumn 8 with
        | ok p => simp [frame_pie hc, ih]
        | error e => simp [ih]
      · split
        · cases hc : create_box_plot df rec.column with
          | ok p => simp [frame_box hc, ih]
          | error e => simp [ih]
        · rw [ih]

/-! ## C8: bulk generation skips failures and tags charts -/

/-- C8: `generate_all_recommended_charts` never raises: it is a total
function whose chart list is exactly the recommendations, in emission order,
mapped through their (possibly failing) chart construction with the failures
dropped; the table is untouched, and every produced chart carries the
recommendation that generated it. -/
theorem generate_all_skips_failures_and_tags (df : DataFrame) :
    (generate_all_recommended_charts df).1 = (recommend_charts df).filterMap (tryBuild df) ∧
    (generate_all_recommended_charts df).2 = df ∧
    ∀ ch ∈ (generate_all_recommended_charts df).1,
      ∃ rec ∈ recommend_charts df, ch.recommendation = some rec := by
  have hg := genLoop_eq (recommend_charts df) df
  refine ⟨?_, ?_, ?_⟩
  · rw [generate_all_recommended_charts, hg]
  · rw [generate_all_recommended_charts, hg]
  · intro ch hch
    rw [generate_all_recommended_charts, hg] at hch
    obtain ⟨rec, hrec, htb⟩ := List.mem_filterMap.mp hch
    exact ⟨rec, hrec, tryBuild_tag htb⟩

theorem mem_valueCounts {df : DataFrame} {i : Nat} {p : Value × Nat}
    (hp : p ∈ valueCounts df i) : p.2 = (nonMissing df i).count p.1 := by
  rw [valueCounts, List.mem_insertionSort] at hp
  obtain ⟨v, _, hvp⟩ := List.mem_map.mp hp
  cases hvp
  rfl

theorem valueCounts_fst_perm (df : DataFrame) (i : Nat) :
    ((valueCounts df i).map Prod.fst).Perm (dedupFirst (nonMissing df i)) := by
  have h1 : (valueCounts df i).Perm (countPairs df i) :=
    List.perm_insertionSort _ _
  have h2 := h1.map Prod.fst
  rw [countPairs, List.map_map] at h2
  rw [show (Prod.fst ∘ fun v : Value => (v, (nonMissing df i).count v)) = id from rfl,
    List.map_id] at h2
  exact h2

theorem valueCounts_stable (df : DataFrame) (i : Nat) (k : Nat) :
    (valueCounts df i).filter (fun p => p.2 == k) =
      (countPairs df i).filter (fun p => p.2 == k) := by
  have hmem : ∀ p ∈ (countPairs df i).filter (fun p => p.2 == k), p.2 = k := by
    intro p hp
    simpa using (List.mem_filter.mp hp).2
  have hpw : ((countPairs df i).filter (fun p => p.2 == k)).Pairwise
      (fun a b : Value × Nat => b.2 ≤ a.2) := by
    apply List.pairwise_of_forall_mem_list
    intro a ha b hb
    rw [hmem a ha, hmem b hb]
  have hsub : List.Sublist ((countPairs df i).filter (fun p => p.2 == k)) (valueCounts df i) :=
    List.sublist_insertionSort hpw (List.filter_sublist _)
  have hAA : ((countPairs df i).filter (fun p => p.2 == k)).filter (fun p => p.2 == k) =
      (countPairs df i).filter (fun p => p.2 == k) :=
    List.filter_eq_self.mpr (fun a ha => (List.mem_filter.mp ha).2)
  have hsub2 := hsub.filter (fun p => p.2 == k)
  rw [hAA] at hsub2
  have hperm : ((valueCounts df i).filter (fun p => p.2 == k)).Perm
      ((countPairs df i).filter (fun p => p.2 == k)) :=
    (List.perm_insertionSort _ (countPairs df i)).filter _
  exact (hsub2.eq_of_length hperm.length_eq.symm).symm

/-! ## C6: bar chart in count mode -/

/-- C6: with no value column, the bar chart counts occurrences per distinct
category value, sorts the counts descending (stably, so equal counts keep
their first-occurrence order) and truncates to the ten largest after sorting;
on `["a","b","a","c","b","a"]` the payload is exactly `a=3, b=2, c=1` in that
order.  The conjuncts: the concrete instance; the payload equation; the
descending sortedness; every emitted count is the occurrence count of its
category; each distinct category appears exactly once; and the stability
(filtering any fixed count out of the sorted list returns those categories in
first-occurrence order). -/
theorem bar_count_mode_spec :
    ((chartOf (create_bar_chart tblCat "cat" none 10)).map barData =
      some [(.vStr "a", 3), (.vStr "b", 2), (.vStr "c", 1)]) ∧
    ∀ df col, hasCol df col = true →
      ((chartOf (create_bar_chart df col none 10)).map barData =
        some (countsToQ ((valueCounts df (colIdx df col)).take 10))) ∧
      List.Sorted (fun a b => b.2 ≤ a.2) (valueCounts df (colIdx df col)) ∧
      (∀ p ∈ valueCounts df (colIdx df col),
        p.2 = (nonMissing df (colIdx df col)).count p.1) ∧
      ((valueCounts df (colIdx df col)).map Prod.fst).Perm
        (dedupFirst (nonMissing df (colIdx df col))) ∧
      ∀ k, (valueCounts df (colIdx df col)).filter (fun p => p.2 == k) =
            (countPairs df (colIdx df col)).filter (fun p => p.2 == k) := by
  refine ⟨by decide, fun df col h => ⟨?_, ?_, ?_, ?_, ?_⟩⟩
  · unfold create_bar_chart
    simp only [h, truthy]
    simp [chartOf, barData]
    refine ⟨_, ⟨df, rfl⟩, ?_⟩
    exact zip_fst_snd _
  · exact List.sorted_insertionSort _ _
  · exact fun p hp => mem_valueCounts hp
  · exact valueCounts_fst_perm df _
  · exact valueCounts_stable df _

/-- C6 witness: the general statement applied at the concrete category
table. -/
theorem bar_count_mode_spec_witness :
    (chartOf (create_bar_chart tblCat "cat" none 10)).map barData =
      some (countsToQ ((valueCounts tblCat (colIdx tblCat "cat")).take 10)) ∧
    List.Sorted (fun a b => b.2 ≤ a.2) (valueCounts tblCat (colIdx tblCat "cat")) :=
  ⟨(bar_count_mode_spec.2 tblCat "cat" (by decide)).1,
   (bar_count_mode_spec.2 tblCat "cat" (by decide)).2.1⟩

theorem filterMap_if_proj {α : Type} (cond : α → Bool) (proj : α → Option Value) (l : List α) :
    (l.filterMap (fun r => if cond r then proj r else none)).filterMap toRatV =
      ((l.filter cond).map proj).filterMap (fun o => o.bind toRatV) := by
  induction l with
  | nil => rfl
  | cons a t ih =>
    by_cases h : cond a
    · cases hp : proj a <;>
        simp [List.filterMap_cons, List.filter_cons, h, hp, ih]
    · simp [List.filterMap_cons, List.filter_cons, h, ih]

theorem pivotCell_eq_filter (df : DataFrame) (vi ci gi : Nat) (c g : Value) :
    pivotCell df vi ci gi c g =
      ratSum (((df.rows.filter (fun r => r.getD ci none == some c &&
          r.getD gi none == some g)).map
        (fun r => r.getD vi none)).filterMap (fun o => o.bind toRatV)) :=
  congrArg ratSum (filterMap_if_proj _ _ df.rows)

/-! ## C7: the grouped-bar pivot -/

/-- C7 counterexample: on category `["x","y"]`, value `[10,5]`, group
`["g1", NaN]`, the category `"y"` is a non-missing value of the category
column, yet the built pivot has no `"y"` row at all: `pivot_table` groups by
both keys jointly and drops the `(y, NaN)` row before discovering the axis
labels, so the `(y, g1)` combination is dropped rather than filled with `0`.
This refutes the claim that the pivot's rows are the category values with
every absent combination zero-filled. -/
theorem pivot_drops_rows_with_missing_key :
    (nonMissing tblPivotNaN 0).contains (Value.vStr "y") = true ∧
    (pivotKeys tblPivotNaN 0 2 0).contains (Value.vStr "y") = false ∧
    create_grouped_bar_chart tblPivotNaN "cat" "val" "grp" =
      .ok ({ ctype := "grouped_bar", columns := ["cat", "val", "grp"],
             fig := { traces := [.barTr (some "g1") [.vStr "x"] [10]],
                      title := "val by cat (grouped by grp)" } }, tblPivotNaN) := by
  with_unfolding_all decide

/-- C7 amended: grouped bars pivot the data with the retained category values
as rows and retained group values as columns — pandas drops every row whose
key is missing in either grouping column before discovering the axis labels —
the per-combination sum of the value column as cells, and each combination of
retained labels absent from the data filled with `0`.  The conjuncts: the
concrete example (category `["x","x","y"]`, value `[10,20,5]`, group
`["g1","g2","g1"]` gives `x:{g1:10, g2:20}`, `y:{g1:5, g2:0}`, emitted as one
trace per group over the category axis); the general shape of the built
chart; each pivot axis enumerates exactly the distinct values of its key
column among the rows whose both keys are present; every axis label indeed
co-occurs with a present other-key; each cell is the sum of the value cells
of the rows matching both keys; and a combination of retained labels absent
from the data is `0`. -/
theorem grouped_bar_pivot_spec :
    (create_grouped_bar_chart tblPivot "cat" "val" "grp" =
      .ok ({ ctype := "grouped_bar", columns := ["cat", "val", "grp"],
             fig := { traces :=
                        [.barTr (some "g1") [.vStr "x", .vStr "y"] [10, 5],
                         .barTr (some "g2") [.vStr "x", .vStr "y"] [20, 0]],
                      title := "val by cat (grouped by grp)" } }, tblPivot)) ∧
    ∀ df c v g, hasCol df c = true → hasCol df v = true → hasCol df g = true →
      (create_grouped_bar_chart df c v g =
        .ok ({ ctype := "grouped_bar",
               columns := [c, v, g],
               fig := { traces := (pivotKeys df (colIdx df c) (colIdx df g)
                          (colIdx df g)).map (fun gv =>
                          .barTr (some (valueToStr gv))
                            (pivotKeys df (colIdx df c) (colIdx df g) (colIdx df c))
                            ((pivotKeys df (colIdx df c) (colIdx df g) (colIdx df c)).map
                              (fun cv =>
                                pivotCell df (colIdx df v) (colIdx df c) (colIdx df g) cv gv))),
                        title := v ++ " by " ++ c ++ " (grouped by " ++ g ++ ")" } }, df)) ∧
      ((pivotKeys df (colIdx df c) (colIdx df g) (colIdx df c)).Perm
        (dedupFirst ((pivotRetained df (colIdx df c) (colIdx df g)).filterMap
          (fun r => r.getD (colIdx df c) none)))) ∧
      ((pivotKeys df (colIdx df c) (colIdx df g) (colIdx df g)).Perm
        (dedupFirst ((pivotRetained df (colIdx df c) (colIdx df g)).filterMap
          (fun r => r.getD (colIdx df g) none)))) ∧
      (∀ cv ∈ pivotKeys df (colIdx df c) (colIdx df g) (colIdx df c),
        ∃ r ∈ df.rows, r.getD (colIdx df c) none = some cv ∧
          (r.getD (colIdx df g) none).isSome = true) ∧
      (∀ cv gv, pivotCell df (colIdx df v) (colIdx df c) (colIdx df g) cv gv =
        ratSum (((df.rows.filter (fun r => r.getD (colIdx df c) none == some cv &&
            r.getD (colIdx df g) none == some gv)).map
          (fun r => r.getD (colIdx df v) none)).filterMap (fun o => o.bind toRatV))) ∧
      (∀ cv gv, df.rows.filter (fun r => r.getD (colIdx df c) none == some cv &&
            r.getD (colIdx df g) none == some gv) = [] →
        pivotCell df (colIdx df v) (colIdx df c) (colIdx df g) cv gv = 0) := by
  refine ⟨by with_unfolding_all decide,
    fun df c v g h1 h2 h3 => ⟨?_, ?_, ?_, ?_, ?_, ?_⟩⟩
  · unfold create_grouped_bar_chart
    simp [h1, h2, h3]
  · exact List.perm_insertionSort _ _
  · exact List.perm_insertionSort _ _
  · intro cv hcv
    rw [pivotKeys, List.mem_insertionSort] at hcv
    obtain ⟨r, hr, hget⟩ := List.mem_filterMap.mp (mem_dedupFirst hcv)
    have hr2 := List.mem_filter.mp hr
    refine ⟨r, hr2.1, hget, ?_⟩
    exact (Bool.and_eq_true_iff.mp hr2.2).2
  · exact fun cv gv => pivotCell_eq_filter df _ _ _ cv gv
  · intro cv gv hempty
    rw [pivotCell_eq_filter, hempty]
    rfl

/-- C7 witness: the general statement applied at the concrete pivot table. -/
theorem grouped_bar_pivot_spec_witness :
    create_grouped_bar_chart tblPivot "cat" "val" "grp" =
      .ok ({ ctype := "grouped_bar",
             columns := ["cat", "val", "grp"],
             fig := { traces := (pivotKeys tblPivot (colIdx tblPivot "cat")
                        (colIdx tblPivot "grp") (colIdx tblPivot "grp")).map (fun gv =>
                        .barTr (some (valueToStr gv))
                          (pivotKeys tblPivot (colIdx tblPivot "cat")
                            (colIdx tblPivot "grp") (colIdx tblPivot "cat"))
                          ((pivotKeys tblPivot (colIdx tblPivot "cat")
                            (colIdx tblPivot "grp") (colIdx tblPivot "cat")).map (fun cv =>
                            pivotCell tblPivot (colIdx tblPivot "val") (colIdx tblPivot "cat")
                              (colIdx tblPivot "grp") cv gv))),
                      title := "val by cat (grouped by grp)" } }, tblPivot) :=
  ((grouped_bar_pivot_spec.2 tblPivot "cat" "val" "grp"
    (by decide) (by decide) (by decide)).1)

end AIDA
